import Mathlib

/-!
Verification of the tun inbound pipeline orchestrator of `leaf`
(`src/leaf/src/proxy/tun/inbound.rs`).

The file embeds the orchestrator's pure decision logic:
the constructor's configuration validation (`new`, lines 26-91), the
device-to-stack forwarding loop (`t2s`, lines 120-127), TCP session
construction and fake-IP destination rewriting (`tcp_incoming`,
lines 133-176), the UDP uplink with DNS short-circuit and fake-IP
rewriting (`udp_incoming`, lines 228-271), and the UDP downlink
re-injection task (lines 195-226).

Collaborators that live outside the analysed file (the Fake DNS
Resolver, the session data types) are modelled abstractly: the
Fake DNS Resolver is a record of query functions, so every theorem
quantifies over an arbitrary resolver state.
-/

namespace TunInbound

abbrev IpAddr := Nat

abbrev Port := Nat

/-- Modelled from the spec: a socket address (`std::net::SocketAddr`
from the session module, not under `src/`): an IP address plus a port. -/
structure SocketAddr where
  ip : IpAddr
  port : Port
  deriving DecidableEq

/-- Modelled from the spec: `SocksAddr` (session module, not under
`src/`): tagged union of Ip(address, port) and Domain(name, port). -/
inductive SocksAddr where
  | ip (a : SocketAddr)
  | domain (name : String) (port : Port)
  deriving DecidableEq

/-- Modelled from the spec: `SocksAddr::must_ip` (session module, not
under `src/`) asserts the address is an IP; `none` models the panic
taken on a `domain` address. -/
def SocksAddr.must_ip : SocksAddr → Option SocketAddr
  | .ip a => some a
  | .domain _ _ => none

/-- Modelled from the spec: `DatagramSource` (session module, not under
`src/`): an address with an optional disambiguator, identifying one UDP
flow for the NAT manager. -/
structure DatagramSource where
  address : SocketAddr
  disambiguator : Option Nat
  deriving DecidableEq

/-- Modelled from the spec: `UdpPacket` (nat_manager module, not under
`src/`): payload bytes plus source and destination `SocksAddr`. -/
structure UdpPacket where
  data : List Nat
  src_addr : SocksAddr
  dst_addr : SocksAddr
  deriving DecidableEq

inductive Network where
  | tcp
  | udp
  deriving DecidableEq

/-- Modelled from the spec: the fields of `Session` (session module,
not under `src/`) that `tcp_incoming` sets; the remaining metadata is
defaulted by the code and not inspected here. -/
structure Session where
  network : Network
  source : SocketAddr
  local_addr : SocketAddr
  destination : SocksAddr
  inbound_tag : String
  deriving DecidableEq

/-- Modelled from the spec: the Fake DNS Resolver contract (membership
test, IP-to-domain lookup, domain-to-fake-IP lookup, DNS reply
synthesis). The resolver itself lives in the fake_dns module, not under
`src/`; theorems quantify over an arbitrary resolver state. -/
structure FakeDns where
  is_fake_ip : IpAddr → Bool
  query_domain : IpAddr → Option String
  query_fake_ip : String → Option IpAddr
  generate_fake_response : List Nat → Except String (List Nat)

/-- Outcome of the UDP uplink loop body for one datagram: a synthesized
DNS reply injected back through the stack (`send_udp`), a submission to
the NAT manager (`nat_manager.send`), or a silent drop (`continue`). -/
inductive UplinkAction where
  | dnsReply (src dst : SocketAddr) (data : List Nat)
  | natSubmit (dgramSrc : DatagramSource) (tag : String) (pkt : UdpPacket)
  | dropPkt
  deriving DecidableEq

def UplinkAction.isDnsReply : UplinkAction → Bool
  | .dnsReply _ _ _ => true
  | _ => false

/-- Lines 247-271 of `inbound.rs`: the non-DNS part of the uplink loop
body. `srcAddr` is `pkt.1` (the datagram's real source), `dstAddr` is
`pkt.2` (its destination). If the destination IP is a fake IP with a
paired domain the destination is rewritten to that domain; a fake IP
without a pairing drops the packet; otherwise the literal IP is kept.
The flow identity is `DatagramSource::new(pkt.1, None)` and the packet
submitted carries `SocksAddr::Ip(dgram_src.address)` as source. -/
def uplink_nat (fakedns : FakeDns) (inbound_tag : String)
    (data : List Nat) (srcAddr dstAddr : SocketAddr) : UplinkAction :=
  if fakedns.is_fake_ip dstAddr.ip then
    match fakedns.query_domain dstAddr.ip with
    | some d =>
        let dgram_src : DatagramSource := ⟨srcAddr, none⟩
        .natSubmit dgram_src inbound_tag
          ⟨data, .ip dgram_src.address, .domain d dstAddr.port⟩
    | none => .dropPkt
  else
    let dgram_src : DatagramSource := ⟨srcAddr, none⟩
    .natSubmit dgram_src inbound_tag
      ⟨data, .ip dgram_src.address, .ip dstAddr⟩

/-- Lines 228-271 of `inbound.rs`: the full uplink loop body. A
datagram whose destination port is 53 is first offered to
`generate_fake_response`; on success the reply is injected back with
`send_udp(lwip, &pkt.2, &pkt.1, pcb, resp)` (source = the queried
address, destination = the requester) and the loop continues; on
failure the datagram falls through to `uplink_nat`. -/
def udp_uplink (fakedns : FakeDns) (inbound_tag : String)
    (data : List Nat) (srcAddr dstAddr : SocketAddr) : UplinkAction :=
  if dstAddr.port == 53 then
    match fakedns.generate_fake_response data with
    | .ok resp => .dnsReply dstAddr srcAddr resp
    | .error _ => uplink_nat fakedns inbound_tag data srcAddr dstAddr
  else uplink_nat fakedns inbound_tag data srcAddr dstAddr

/-- Outcome of the downlink task body for one packet received on the
downlink channel: an injection into the stack
(`send_udp(lwip, &src_addr, &dst_addr, pcb, data)`), a drop
(`continue` after a failed fake-IP lookup), or a panic
(`must_ip` on a domain destination). -/
inductive DownlinkResult where
  | inject (src dst : SocketAddr) (data : List Nat)
  | dropPkt
  | panic
  deriving DecidableEq

/-- Lines 196-225 of `inbound.rs`: the downlink loop body. The packet's
destination goes through `must_ip` (panic on a domain); the source, if
a domain, is resolved to its paired fake IP, and a miss drops the
packet with a warning. -/
def downlink_step (fakedns : FakeDns) (pkt : UdpPacket) : DownlinkResult :=
  match pkt.dst_addr.must_ip with
  | none => .panic
  | some dst_addr =>
    match pkt.src_addr with
    | .ip a => .inject a dst_addr pkt.data
    | .domain d port =>
      match fakedns.query_fake_ip d with
      | some fip => .inject ⟨fip, port⟩ dst_addr pkt.data
      | none => .dropPkt

/-- The downlink task run over a finite queue of packets: the list of
injections performed, paired with a flag recording whether the task
died in a panic (in which case the remaining packets are never
processed). -/
def downlink_run (fakedns : FakeDns) :
    List UdpPacket → List (SocketAddr × SocketAddr × List Nat) × Bool
  | [] => ([], false)
  | pkt :: rest =>
    match downlink_step fakedns pkt with
    | .panic => ([], true)
    | .dropPkt => downlink_run fakedns rest
    | .inject s d b =>
        let r := downlink_run fakedns rest
        ((s, d, b) :: r.1, r.2)

/-- Outcome for one accepted TCP connection: a dispatch
(`dispatcher.dispatch_tcp(&mut sess, ...)`) or a silent drop
(the early `return`). -/
inductive TcpAction where
  | dispatch (sess : Session)
  | dropConn
  deriving DecidableEq

/-- Lines 141-174 of `inbound.rs`: the per-connection body of
`tcp_incoming`. A session is built with network TCP, source = the
stream's stack-local endpoint, local_addr = its remote endpoint and
destination = Ip(remote endpoint); if the remote IP is a fake IP with a
paired domain the destination is rewritten to that domain, a fake IP
without a pairing is dropped unless the remote port is 443. -/
def tcp_incoming (fakedns : FakeDns) (inbound_tag : String)
    (localAddr remoteAddr : SocketAddr) : TcpAction :=
  let sess : Session := ⟨.tcp, localAddr, remoteAddr, .ip remoteAddr, inbound_tag⟩
  if fakedns.is_fake_ip remoteAddr.ip then
    match fakedns.query_domain remoteAddr.ip with
    | some d => .dispatch { sess with destination := .domain d remoteAddr.port }
    | none =>
      if remoteAddr.port ≠ 443 then .dropConn
      else .dispatch sess
  else .dispatch sess

/-- The fields of `TunInboundSettings` that `new` inspects. -/
structure TunInboundSettings where
  fd : Int
  auto : Bool
  fake_dns_exclude : List String
  fake_dns_include : List String
  deriving DecidableEq

inductive FakeDnsMode where
  | Include
  | Exclude
  deriving DecidableEq

/-- Events performed by `new` in order: which branch configured the tun
device descriptor (lines 34-70) and the `tun::create_as_async` call
(line 86). -/
inductive NewEvent where
  | cfgRawFd
  | cfgAuto
  | cfgManual
  | tunCreate
  deriving DecidableEq

/-- Result of `new`: an error value returned to the caller, the panic
of the `assert!(settings.fd == -1)` at line 89, or the runner with the
fake-DNS mode and filter list it will load. -/
inductive NewOutcome where
  | configError (msg : String)
  | assertPanic
  | runner (mode : FakeDnsMode) (filters : List String)
  deriving DecidableEq

/-- Lines 33-70 of `inbound.rs`: which configuration branch is taken
(`fd >= 0` first, then `auto`, then manual). -/
def cfg_event (s : TunInboundSettings) : NewEvent :=
  if s.fd ≥ 0 then .cfgRawFd
  else if s.auto then .cfgAuto
  else .cfgManual

/-- Lines 26-91 of `inbound.rs`: the constructor `new`, as the ordered
list of events it performs together with its outcome. The fake-DNS
list check at line 75 precedes `create_as_async` at line 86, which
precedes the `assert!` at line 89. -/
def new (s : TunInboundSettings) : List NewEvent × NewOutcome :=
  let ev := cfg_event s
  if s.fake_dns_exclude ≠ [] ∧ s.fake_dns_include ≠ [] then
    ([ev], .configError "fake DNS run in either include mode or exclude mode")
  else
    let mf : FakeDnsMode × List String :=
      if s.fake_dns_include ≠ [] then (.Include, s.fake_dns_include)
      else (.Exclude, s.fake_dns_exclude)
    if s.auto ∧ s.fd ≠ -1 then ([ev, .tunCreate], .assertPanic)
    else ([ev, .tunCreate], .runner mf.1 mf.2)

/-- Lines 120-127 of `inbound.rs`: the device-to-stack task `t2s`,
run over a finite prefix of the device stream. A successfully read
packet's payload is sent to the stack; a failed read is skipped and
the loop continues. -/
def t2s_run : List (Except String (List Nat)) → List (List Nat)
  | [] => []
  | .ok pkt :: rest => pkt :: t2s_run rest
  | .error _ :: rest => t2s_run rest

/-! Concrete resolver states used by witnesses. -/

/-- A resolver knowing no fake IPs and synthesizing no replies. -/
def fakednsEmpty : FakeDns where
  is_fake_ip := fun _ => false
  query_domain := fun _ => none
  query_fake_ip := fun _ => none
  generate_fake_response := fun _ => .error "unrecognized query"

/-- A resolver pairing fake IP 100 with the domain "example.com". -/
def fakednsPaired : FakeDns where
  is_fake_ip := fun ip => ip == 100
  query_domain := fun ip => if ip == 100 then some "example.com" else none
  query_fake_ip := fun d => if d == "example.com" then some 100 else none
  generate_fake_response := fun _ => .error "unrecognized query"

/-- A resolver that believes IP 100 is fake but has no domain paired
with it, and synthesizes a reply to every query. -/
def fakednsUnpaired : FakeDns where
  is_fake_ip := fun ip => ip == 100
  query_domain := fun _ => none
  query_fake_ip := fun _ => none
  generate_fake_response := fun q => .ok (0 :: q)

/-- C1: a UDP datagram not consumed by the DNS short-circuit is
submitted to the NAT manager with destination Domain(D, same port)
when its destination IP is a fake IP paired with D; dropped when the
fake IP has no pairing; and submitted with the literal Ip destination
otherwise — always with source Ip(real source) and a flow identity
built from the real source with no disambiguator. -/
theorem c1_uplink_nat_submission (fakedns : FakeDns) (tag : String)
    (data : List Nat) (src dst : SocketAddr)
    (h : (udp_uplink fakedns tag data src dst).isDnsReply = false) :
    (∀ d, fakedns.is_fake_ip dst.ip = true →
      fakedns.query_domain dst.ip = some d →
      udp_uplink fakedns tag data src dst =
        .natSubmit ⟨src, none⟩ tag ⟨data, .ip src, .domain d dst.port⟩) ∧
    (fakedns.is_fake_ip dst.ip = true →
      fakedns.query_domain dst.ip = none →
      udp_uplink fakedns tag data src dst = .dropPkt) ∧
    (fakedns.is_fake_ip dst.ip = false →
      udp_uplink fakedns tag data src dst =
        .natSubmit ⟨src, none⟩ tag ⟨data, .ip src, .ip dst⟩) := by
  have hnat : udp_uplink fakedns tag data src dst =
      uplink_nat fakedns tag data src dst := by
    by_cases hp : (dst.port == 53) = true
    · rcases hg : fakedns.generate_fake_response data with e | resp
      · simp [udp_uplink, hp, hg]
      · exfalso
        simp [udp_uplink, hp, hg, UplinkAction.isDnsReply] at h
    · simp [udp_uplink, hp]
  rw [hnat]
  refine ⟨?_, ?_, ?_⟩
  · intro d hf hq
    simp [uplink_nat, hf, hq]
  · intro hf hq
    simp [uplink_nat, hf, hq]
  · intro hf
    simp [uplink_nat, hf]

theorem c1_witness :
    (udp_uplink fakednsPaired "tun" [1, 2] ⟨7, 4000⟩ ⟨100, 8000⟩).isDnsReply
        = false ∧
    ((∀ d, fakednsPaired.is_fake_ip (100 : Nat) = true →
      fakednsPaired.query_domain (100 : Nat) = some d →
      udp_uplink fakednsPaired "tun" [1, 2] ⟨7, 4000⟩ ⟨100, 8000⟩ =
        .natSubmit ⟨⟨7, 4000⟩, none⟩ "tun"
          ⟨[1, 2], .ip ⟨7, 4000⟩, .domain d 8000⟩) ∧
    (fakednsPaired.is_fake_ip (100 : Nat) = true →
      fakednsPaired.query_domain (100 : Nat) = none →
      udp_uplink fakednsPaired "tun" [1, 2] ⟨7, 4000⟩ ⟨100, 8000⟩ =
        .dropPkt) ∧
    (fakednsPaired.is_fake_ip (100 : Nat) = false →
      udp_uplink fakednsPaired "tun" [1, 2] ⟨7, 4000⟩ ⟨100, 8000⟩ =
        .natSubmit ⟨⟨7, 4000⟩, none⟩ "tun"
          ⟨[1, 2], .ip ⟨7, 4000⟩, .ip ⟨100, 8000⟩⟩)) :=
  ⟨rfl, c1_uplink_nat_submission fakednsPaired "tun" [1, 2] ⟨7, 4000⟩
    ⟨100, 8000⟩ rfl⟩

/-- C4: a datagram with destination port 53 whose payload the resolver
can synthesize a reply for is answered directly — the reply is injected
back to the original requester and the datagram never reaches the NAT
manager; if synthesis fails the datagram falls through to the normal
UDP handling `uplink_nat`. -/
theorem c4_dns_short_circuit (fakedns : FakeDns) (tag : String)
    (data : List Nat) (src dst : SocketAddr) (h : dst.port = 53) :
    (∀ resp, fakedns.generate_fake_response data = .ok resp →
      udp_uplink fakedns tag data src dst = .dnsReply dst src resp) ∧
    (∀ e, fakedns.generate_fake_response data = .error e →
      udp_uplink fakedns tag data src dst =
        uplink_nat fakedns tag data src dst) := by
  constructor
  · intro resp hg
    simp [udp_uplink, h, hg]
  · intro e hg
    simp [udp_uplink, h, hg]

theorem c4_witness :
    (⟨100, 53⟩ : SocketAddr).port = 53 ∧
    ((∀ resp, fakednsUnpaired.generate_fake_response [3, 4] = .ok resp →
      udp_uplink fakednsUnpaired "tun" [3, 4] ⟨7, 4000⟩ ⟨100, 53⟩ =
        .dnsReply ⟨100, 53⟩ ⟨7, 4000⟩ resp) ∧
    (∀ e, fakednsUnpaired.generate_fake_response [3, 4] = .error e →
      udp_uplink fakednsUnpaired "tun" [3, 4] ⟨7, 4000⟩ ⟨100, 53⟩ =
        uplink_nat fakednsUnpaired "tun" [3, 4] ⟨7, 4000⟩ ⟨100, 53⟩)) :=
  ⟨rfl, c4_dns_short_circuit fakednsUnpaired "tun" [3, 4] ⟨7, 4000⟩
    ⟨100, 53⟩ rfl⟩

/-- C2 counterexample: a downlink packet whose declared destination is
Domain("example.com", 80), while "example.com" does have the allocated
fake IP 100, does not produce an injection addressed to 100:80 — the
`must_ip` call on the destination panics. -/
theorem c2_counterexample :
    downlink_step fakednsPaired
      ⟨[9], .ip ⟨7, 5353⟩, .domain "example.com" 80⟩ =
      DownlinkResult.panic := rfl

/-- C2 (amended): the downlink task resolves the packet's source, not
its destination: a Domain(D, port) source with fake IP F yields an
injection with source F:port to the packet's IP destination; a source
domain with no fake IP is dropped; an IP source is used as-is; and a
Domain destination panics via `must_ip`. -/
theorem c2_downlink_resolution (fakedns : FakeDns) (data : List Nat)
    (dst : SocketAddr) (d : String) (port : Port) :
    (∀ f, fakedns.query_fake_ip d = some f →
      downlink_step fakedns ⟨data, .domain d port, .ip dst⟩ =
        .inject ⟨f, port⟩ dst data) ∧
    (fakedns.query_fake_ip d = none →
      downlink_step fakedns ⟨data, .domain d port, .ip dst⟩ = .dropPkt) ∧
    (∀ a, downlink_step fakedns ⟨data, .ip a, .ip dst⟩ =
      .inject a dst data) ∧
    (∀ s, downlink_step fakedns ⟨data, s, .domain d port⟩ = .panic) := by
  refine ⟨?_, ?_, ?_, ?_⟩
  · intro f hf
    simp [downlink_step, SocksAddr.must_ip, hf]
  · intro hf
    simp [downlink_step, SocksAddr.must_ip, hf]
  · intro a
    simp [downlink_step, SocksAddr.must_ip]
  · intro s
    simp [downlink_step, SocksAddr.must_ip]

theorem c2_witness :
    (∀ f, fakednsPaired.query_fake_ip "example.com" = some f →
      downlink_step fakednsPaired
        ⟨[9], .domain "example.com" 80, .ip ⟨7, 5353⟩⟩ =
        .inject ⟨f, 80⟩ ⟨7, 5353⟩ [9]) ∧
    (fakednsPaired.query_fake_ip "example.com" = none →
      downlink_step fakednsPaired
        ⟨[9], .domain "example.com" 80, .ip ⟨7, 5353⟩⟩ = .dropPkt) ∧
    (∀ a, downlink_step fakednsPaired ⟨[9], .ip a, .ip ⟨7, 5353⟩⟩ =
      .inject a ⟨7, 5353⟩ [9]) ∧
    (∀ s, downlink_step fakednsPaired ⟨[9], s, .domain "example.com" 80⟩ =
      .panic) :=
  c2_downlink_resolution fakednsPaired [9] ⟨7, 5353⟩ "example.com" 80

/-- C3: a downlink packet whose NAT-recorded source is a domain is
resolved to its paired fake IP before injection; when no fake IP is
paired the packet is dropped and the task goes on to process the rest
of the queue — the miss is never fatal. -/
theorem c3_downlink_domain_source (fakedns : FakeDns) (data : List Nat)
    (d : String) (port : Port) (a : SocketAddr) (rest : List UdpPacket) :
    (fakedns.query_fake_ip d = none →
      downlink_run fakedns (⟨data, .domain d port, .ip a⟩ :: rest) =
        downlink_run fakedns rest) ∧
    (∀ f, fakedns.query_fake_ip d = some f →
      downlink_run fakedns (⟨data, .domain d port, .ip a⟩ :: rest) =
        ((⟨f, port⟩, a, data) :: (downlink_run fakedns rest).1,
          (downlink_run fakedns rest).2)) := by
  constructor
  · intro hf
    simp [downlink_run, downlink_step, SocksAddr.must_ip, hf]
  · intro f hf
    simp [downlink_run, downlink_step, SocksAddr.must_ip, hf]

theorem c3_witness :
    (fakednsEmpty.query_fake_ip "example.com" = none →
      downlink_run fakednsEmpty
        (⟨[9], .domain "example.com" 80, .ip ⟨7, 5353⟩⟩ ::
          [⟨[5], .ip ⟨8, 9⟩, .ip ⟨7, 5353⟩⟩]) =
        downlink_run fakednsEmpty [⟨[5], .ip ⟨8, 9⟩, .ip ⟨7, 5353⟩⟩]) ∧
    (∀ f, fakednsEmpty.query_fake_ip "example.com" = some f →
      downlink_run fakednsEmpty
        (⟨[9], .domain "example.com" 80, .ip ⟨7, 5353⟩⟩ ::
          [⟨[5], .ip ⟨8, 9⟩, .ip ⟨7, 5353⟩⟩]) =
        ((⟨f, 80⟩, ⟨7, 5353⟩, [9]) ::
          (downlink_run fakednsEmpty
            [⟨[5], .ip ⟨8, 9⟩, .ip ⟨7, 5353⟩⟩]).1,
          (downlink_run fakednsEmpty
            [⟨[5], .ip ⟨8, 9⟩, .ip ⟨7, 5353⟩⟩]).2)) :=
  c3_downlink_domain_source fakednsEmpty [9] "example.com" 80 ⟨7, 5353⟩
    [⟨[5], .ip ⟨8, 9⟩, .ip ⟨7, 5353⟩⟩]

/-- C10: the downlink task calls `must_ip` on every packet's
destination, so a packet whose destination is a Domain address makes
the task panic — the packet is not dropped, and the rest of the queue
is never processed. -/
theorem c10_domain_destination_panics (fakedns : FakeDns)
    (data : List Nat) (src : SocksAddr) (d : String) (port : Port)
    (rest : List UdpPacket) :
    downlink_step fakedns ⟨data, src, .domain d port⟩ = .panic ∧
    downlink_run fakedns (⟨data, src, .domain d port⟩ :: rest) =
      ([], true) := by
  constructor
  · simp [downlink_step, SocksAddr.must_ip]
  · simp [downlink_run, downlink_step, SocksAddr.must_ip]

/-- C5: an accepted TCP connection whose remote address is a fake IP
with no domain pairing is dropped without invoking the dispatcher when
the remote port is not 443; on port 443 it is dispatched with
destination Ip(fake IP):443. -/
theorem c5_unpaired_fake_ip_port_gate (fakedns : FakeDns) (tag : String)
    (l r : SocketAddr) (hf : fakedns.is_fake_ip r.ip = true)
    (hd : fakedns.query_domain r.ip = none) :
    (r.port ≠ 443 → tcp_incoming fakedns tag l r = .dropConn) ∧
    (r.port = 443 → tcp_incoming fakedns tag l r =
      .dispatch ⟨.tcp, l, r, .ip r, tag⟩) := by
  constructor
  · intro hp
    simp [tcp_incoming, hf, hd, hp]
  · intro hp
    simp [tcp_incoming, hf, hd, hp]

theorem c5_witness :
    fakednsUnpaired.is_fake_ip (100 : Nat) = true ∧
    fakednsUnpaired.query_domain (100 : Nat) = none ∧
    (((100 : Nat) ≠ 443 →
      tcp_incoming fakednsUnpaired "tun" ⟨7, 4000⟩ ⟨100, 100⟩ =
        .dropConn) ∧
    ((100 : Nat) = 443 →
      tcp_incoming fakednsUnpaired "tun" ⟨7, 4000⟩ ⟨100, 100⟩ =
        .dispatch ⟨.tcp, ⟨7, 4000⟩, ⟨100, 100⟩, .ip ⟨100, 100⟩, "tun"⟩)) :=
  ⟨rfl, rfl,
    c5_unpaired_fake_ip_port_gate fakednsUnpaired "tun" ⟨7, 4000⟩
      ⟨100, 100⟩ rfl rfl⟩

/-- C6: every dispatched session has network TCP, source = the
stack-local endpoint, local_addr = the remote endpoint and the
connection's inbound tag; the destination is Ip(remote endpoint) by
default and is rewritten to Domain(domain, remote port) when the
remote address is a fake IP with a paired domain. -/
theorem c6_tcp_session_fields (fakedns : FakeDns) (tag : String)
    (l r : SocketAddr) :
    (∀ sess, tcp_incoming fakedns tag l r = .dispatch sess →
      sess.network = .tcp ∧ sess.source = l ∧ sess.local_addr = r ∧
        sess.inbound_tag = tag) ∧
    (fakedns.is_fake_ip r.ip = false →
      tcp_incoming fakedns tag l r =
        .dispatch ⟨.tcp, l, r, .ip r, tag⟩) ∧
    (∀ d, fakedns.is_fake_ip r.ip = true →
      fakedns.query_domain r.ip = some d →
      tcp_incoming fakedns tag l r =
        .dispatch ⟨.tcp, l, r, .domain d r.port, tag⟩) := by
  refine ⟨?_, ?_, ?_⟩
  · intro sess hs
    cases hf : fakedns.is_fake_ip r.ip
    · simp [tcp_incoming, hf] at hs
      simp [← hs]
    · rcases hq : fakedns.query_domain r.ip with _ | d
      · by_cases hp : r.port = 443
        · simp [tcp_incoming, hf, hq, hp] at hs
          simp [← hs]
        · simp [tcp_incoming, hf, hq, hp] at hs
      · simp [tcp_incoming, hf, hq] at hs
        simp [← hs]
  · intro hf
    simp [tcp_incoming, hf]
  · intro d hf hq
    simp [tcp_incoming, hf, hq]

theorem c6_witness :
    (∀ sess,
      tcp_incoming fakednsPaired "tun" ⟨7, 4000⟩ ⟨100, 443⟩ =
        .dispatch sess →
      sess.network = .tcp ∧ sess.source = ⟨7, 4000⟩ ∧
        sess.local_addr = ⟨100, 443⟩ ∧ sess.inbound_tag = "tun") ∧
    (fakednsPaired.is_fake_ip (100 : Nat) = false →
      tcp_incoming fakednsPaired "tun" ⟨7, 4000⟩ ⟨100, 443⟩ =
        .dispatch ⟨.tcp, ⟨7, 4000⟩, ⟨100, 443⟩, .ip ⟨100, 443⟩, "tun"⟩) ∧
    (∀ d, fakednsPaired.is_fake_ip (100 : Nat) = true →
      fakednsPaired.query_domain (100 : Nat) = some d →
      tcp_incoming fakednsPaired "tun" ⟨7, 4000⟩ ⟨100, 443⟩ =
        .dispatch ⟨.tcp, ⟨7, 4000⟩, ⟨100, 443⟩, .domain d 443, "tun"⟩) :=
  c6_tcp_session_fields fakednsPaired "tun" ⟨7, 4000⟩ ⟨100, 443⟩

/-- C7: when both the fake-DNS include list and the fake-DNS exclude
list are non-empty the constructor returns a configuration error, and
the tun device is never created. -/
theorem c7_conflicting_fake_dns_lists (s : TunInboundSettings)
    (h1 : s.fake_dns_exclude ≠ []) (h2 : s.fake_dns_include ≠ []) :
    (new s).2 =
      .configError "fake DNS run in either include mode or exclude mode" ∧
    NewEvent.tunCreate ∉ (new s).1 := by
  constructor
  · simp [new, h1, h2]
  · simp [new, h1, h2, cfg_event]
    split
    · simp
    · split <;> simp

theorem c7_witness :
    (["a.com"] : List String) ≠ [] ∧ (["b.com"] : List String) ≠ [] ∧
    ((new ⟨-1, false, ["a.com"], ["b.com"]⟩).2 =
      .configError "fake DNS run in either include mode or exclude mode" ∧
    NewEvent.tunCreate ∉ (new ⟨-1, false, ["a.com"], ["b.com"]⟩).1) :=
  ⟨by decide, by decide,
    c7_conflicting_fake_dns_lists ⟨-1, false, ["a.com"], ["b.com"]⟩
      (by decide) (by decide)⟩

/-- C9 counterexample: a settings value with auto = true and fd = 5
(so fd ≠ -1) whose fake-DNS lists are both non-empty makes the
constructor return a configuration error instead of panicking, and the
tun device is never created. -/
theorem c9_counterexample :
    (⟨5, true, ["b.com"], ["a.com"]⟩ : TunInboundSettings).auto = true ∧
    (⟨5, true, ["b.com"], ["a.com"]⟩ : TunInboundSettings).fd ≠ -1 ∧
    (new ⟨5, true, ["b.com"], ["a.com"]⟩).2 =
      .configError "fake DNS run in either include mode or exclude mode" := by
  refine ⟨rfl, by decide, ?_⟩
  rfl

/-- C9 (amended): when auto = true, fd ≠ -1 and the fake-DNS lists are
not both non-empty, the constructor panics in the
`assert!(settings.fd == -1)` after the tun device has been created,
rather than returning an error; when moreover fd ≥ 0 the raw-fd
configuration branch was the one taken. -/
theorem c9_auto_with_fd_panics (s : TunInboundSettings)
    (ha : s.auto = true) (hfd : s.fd ≠ -1)
    (hl : ¬(s.fake_dns_exclude ≠ [] ∧ s.fake_dns_include ≠ [])) :
    (new s).2 = .assertPanic ∧
    NewEvent.tunCreate ∈ (new s).1 ∧
    (0 ≤ s.fd → cfg_event s = .cfgRawFd) := by
  refine ⟨?_, ?_, ?_⟩
  · simp [new, hl, ha, hfd]
  · simp [new, hl, ha, hfd]
  · intro h0
    simp [cfg_event, h0]

theorem c9_witness :
    (⟨5, true, [], ["a.com"]⟩ : TunInboundSettings).auto = true ∧
    (⟨5, true, [], ["a.com"]⟩ : TunInboundSettings).fd ≠ -1 ∧
    ¬((⟨5, true, [], ["a.com"]⟩ : TunInboundSettings).fake_dns_exclude
        ≠ [] ∧
      (⟨5, true, [], ["a.com"]⟩ : TunInboundSettings).fake_dns_include
        ≠ []) ∧
    ((new ⟨5, true, [], ["a.com"]⟩).2 = .assertPanic ∧
    NewEvent.tunCreate ∈ (new ⟨5, true, [], ["a.com"]⟩).1 ∧
    (0 ≤ (⟨5, true, [], ["a.com"]⟩ : TunInboundSettings).fd →
      cfg_event ⟨5, true, [], ["a.com"]⟩ = .cfgRawFd)) :=
  ⟨rfl, by decide, by decide,
    c9_auto_with_fd_panics ⟨5, true, [], ["a.com"]⟩ rfl (by decide)
      (by decide)⟩

/-- C8: the device-to-stack task forwards exactly the payloads of the
successfully read packets, in the order they were read — malformed
reads are skipped and the loop continues. -/
theorem c8_t2s_fifo (input : List (Except String (List Nat)))
    (e : String) (p : List Nat) :
    t2s_run input = input.filterMap Except.toOption ∧
    t2s_run (.error e :: input) = t2s_run input ∧
    t2s_run (.ok p :: input) = p :: t2s_run input := by
  refine ⟨?_, rfl, rfl⟩
  induction input with
  | nil => rfl
  | cons hd tl ih =>
    cases hd with
    | ok v => simp [t2s_run, List.filterMap, Except.toOption, ih]
    | error err => simp [t2s_run, List.filterMap, Except.toOption, ih]

end TunInbound
